import Mathlib

/-!
Verification of the nsh connection multiplexer and command grammar.

The development shallowly embeds the two core components of the repository:

* `src/command.rs` — the command addressing grammar (`LocalCommand`,
  `Command`, their `FromStr` parsing and `Display` rendering);
* `src/server.rs` — the reactor-driven multiplexer `Server`
  (`handle_listener_event`, `handle_transport_event`, `handle_error`).

External collaborator types (raw connections, sessions, transports, peer
keys, listener handles) are kept abstract as type parameters; the delegate
trait is a record of functions.  The `RemoteHost` address type and its
textual parse/display live outside the provided sources (the cyphernet
`PeerAddr` machinery), so they are modelled from the specification.
-/

namespace Nsh

/-! ## Command grammar (src/command.rs) -/

/-- Modelled from the spec: a hop target `RemoteHost` is a pair of a
`PeerIdentity` (public key) and a network address; its source definition
and `FromStr`/`Display` instances (cyphernet `PeerAddr`) are not under
`src/`.  Both components are kept as their textual representations. -/
structure RemoteHost where
  keyRepr : String
  addrRepr : String
deriving DecidableEq

/-- Modelled from the spec: the textual form of a peer identity (a public
key) is a nonempty string that never contains the separator `@`. -/
def validKeyRepr (s : String) : Bool :=
  decide (s.data ≠ [] ∧ '@' ∉ s.data)

/-- Modelled from the spec: a network address is a nonempty string. -/
def validAddrRepr (s : String) : Bool :=
  decide (s.data ≠ [])

/-- Modelled from the spec: the errors of the external host-address parse
(`PeerAddrParseError`), carried by `InvalidCommand::RemoteAddr`. -/
inductive AddrParseError where
  | missingKeySeparator
  | invalidKey (s : String)
  | invalidAddr (s : String)
deriving DecidableEq

/-- The error type of command parsing (`InvalidCommand` in src/command.rs). -/
inductive InvalidCommand where
  | unrecognized (s : String)
  | remoteAddr (e : AddrParseError)
deriving DecidableEq

/-- The leaf command vocabulary (`LocalCommand` in src/command.rs). -/
inductive LocalCommand where
  | echo
  | date
deriving DecidableEq

/-- `Display` of `LocalCommand` (`#[display(lowercase)]`). -/
def LocalCommand.display : LocalCommand → String
  | .echo => "echo"
  | .date => "date"

/-- `FromStr` of `LocalCommand`: exact, case-sensitive match of the
vocabulary, anything else is `Unrecognized`. -/
def LocalCommand.from_str (s : String) : Except InvalidCommand LocalCommand :=
  if s = "echo" then .ok .echo
  else if s = "date" then .ok .date
  else .error (.unrecognized s)

/-- Rust `str::split_once('@')` on the character list of a string:
split at the first occurrence of `@`, yielding the parts strictly before
and strictly after it. -/
def split_once_aux : List Char → Option (List Char × List Char)
  | [] => none
  | c :: cs =>
    if c = '@' then some ([], cs)
    else (split_once_aux cs).map (fun p => (c :: p.1, p.2))

/-- Rust `str::split_once("@")` on strings. -/
def split_once (s : String) : Option (String × String) :=
  (split_once_aux s.data).map (fun p => (⟨p.1⟩, ⟨p.2⟩))

/-- Modelled from the spec: parsing a host address resolves the text into
a `PeerIdentity` plus network address; the identity part stands before a
`@` separator and the remainder is the network address. -/
def RemoteHost.from_str (s : String) : Except AddrParseError RemoteHost :=
  match split_once s with
  | none => .error .missingKeySeparator
  | some (k, a) =>
    if !validKeyRepr k then .error (.invalidKey k)
    else if !validAddrRepr a then .error (.invalidAddr a)
    else .ok ⟨k, a⟩

/-- Modelled from the spec: the textual form of a host address places the
peer identity before the `@` separator and the network address after it. -/
def RemoteHost.display (h : RemoteHost) : String :=
  h.keyRepr ++ "@" ++ h.addrRepr

/-- A `RemoteHost` value is constructible when its components satisfy the
textual invariants of the underlying key and address types. -/
def RemoteHost.wf (h : RemoteHost) : Prop :=
  validKeyRepr h.keyRepr = true ∧ validAddrRepr h.addrRepr = true

instance (h : RemoteHost) : Decidable h.wf := by
  unfold RemoteHost.wf; infer_instance

/-- The command type (`Command` in src/command.rs): a local execution or a
one-level forward to a hop. -/
inductive Command where
  | execute (command : LocalCommand)
  | forward (hop : RemoteHost) (command : LocalCommand)
deriving DecidableEq

/-- `Display` of `Command`: `{command}` for `Execute`,
`{command}@{hop}` for `Forward`. -/
def Command.display : Command → String
  | .execute c => c.display
  | .forward h c => c.display ++ "@" ++ h.display

/-- `FromStr` of `Command` (src/command.rs lines 60–70): without `@` the
whole text is a `LocalCommand`; otherwise `split_once("@")` yields
`(command, hop)`, the hop is parsed first (Rust evaluates the struct
fields in written order, `hop` before `command`), then the command token. -/
def Command.from_str (s : String) : Except InvalidCommand Command :=
  match split_once s with
  | none =>
    match LocalCommand.from_str s with
    | .error e => .error e
    | .ok c => .ok (.execute c)
  | some (command, hop) =>
    match RemoteHost.from_str hop with
    | .error e => .error (.remoteAddr e)
    | .ok h =>
      match LocalCommand.from_str command with
      | .error e => .error e
      | .ok c => .ok (.forward h c)

/-- A `Command` value is constructible when its hop (if any) is. -/
def Command.wf : Command → Prop
  | .execute _ => True
  | .forward h _ => h.wf

instance (c : Command) : Decidable c.wf := by
  cases c <;> (unfold Command.wf; infer_instance)

/-! ## Splitting lemmas for the grammar -/

theorem split_once_aux_append (l r : List Char) (h : '@' ∉ l) :
    split_once_aux (l ++ '@' :: r) = some (l, r) := by
  induction l with
  | nil => simp [split_once_aux]
  | cons c cs ih =>
    simp only [List.mem_cons, not_or] at h
    simp [split_once_aux, Ne.symm h.1, ih h.2]

theorem string_data_append (a b : String) : (a ++ b).data = a.data ++ b.data := by
  cases a; cases b; rfl

theorem split_once_append (l r : String) (h : '@' ∉ l.data) :
    split_once (l ++ "@" ++ r) = some (l, r) := by
  unfold split_once
  rw [string_data_append, string_data_append]
  have : l.data ++ "@".data ++ r.data = l.data ++ '@' :: r.data := by
    rw [List.append_assoc]; rfl
  rw [this, split_once_aux_append l.data r.data h]
  rfl

theorem display_no_at (c : LocalCommand) : '@' ∉ c.display.data := by
  cases c <;> decide

theorem local_from_str_display (c : LocalCommand) :
    LocalCommand.from_str c.display = .ok c := by
  cases c <;> rfl

theorem remote_host_from_str_display (h : RemoteHost) (hw : h.wf) :
    RemoteHost.from_str h.display = .ok h := by
  obtain ⟨hk, ha⟩ := hw
  have hnat : '@' ∉ h.keyRepr.data := (of_decide_eq_true hk).2
  unfold RemoteHost.from_str RemoteHost.display
  rw [split_once_append _ _ hnat]
  simp [hk, ha]

theorem command_from_str_split (l r : String) (h : '@' ∉ l.data) :
    Command.from_str (l ++ "@" ++ r) =
      match RemoteHost.from_str r with
      | .error e => .error (.remoteAddr e)
      | .ok hp =>
        match LocalCommand.from_str l with
        | .error e => .error e
        | .ok c => .ok (.forward hp c) := by
  unfold Command.from_str
  rw [split_once_append _ _ h]

theorem command_from_str_forward (h : RemoteHost) (c : LocalCommand) (hw : h.wf) :
    Command.from_str (c.display ++ "@" ++ h.display) = .ok (.forward h c) := by
  rw [command_from_str_split _ _ (display_no_at c),
    remote_host_from_str_display h hw, local_from_str_display c]

/-! ## Grammar claims -/

/-- Claim C3: for every constructible `Command` value `c` (both `Execute`
and `Forward` shapes), parsing its textual display yields `c` back, even
though the display of a `Forward` hop address itself contains a `@`. -/
theorem c3_parse_display_round_trip (c : Command) (hw : c.wf) :
    Command.from_str c.display = .ok c := by
  cases c with
  | execute lc =>
    cases lc <;> rfl
  | forward h lc =>
    show Command.from_str (lc.display ++ "@" ++ h.display) = _
    exact command_from_str_forward h lc hw

/-- Witness for C3 at a concrete `Forward` command whose hop display
contains a `@`. -/
theorem c3_witness :
    Command.from_str (Command.display (.forward ⟨"key", "host:3232"⟩ .echo))
      = .ok (.forward ⟨"key", "host:3232"⟩ .echo) :=
  c3_parse_display_round_trip (.forward ⟨"key", "host:3232"⟩ .echo) (by decide)

/-- Claim C4 as stated is false: the textual form of a `Forward` command
places the local command BEFORE the `@` separator and the host after it,
not the other way round, and parse rejects the host-first layout. -/
theorem c4_counterexample :
    Command.display (.forward ⟨"pk", "1.2.3.4:3232"⟩ .date) = "date@pk@1.2.3.4:3232"
    ∧ Command.display (.forward ⟨"pk", "1.2.3.4:3232"⟩ .date)
        ≠ RemoteHost.display ⟨"pk", "1.2.3.4:3232"⟩ ++ "@" ++ LocalCommand.display .date
    ∧ Command.from_str (RemoteHost.display ⟨"pk", "1.2.3.4:3232"⟩ ++ "@" ++ LocalCommand.display .date)
        = .error (.unrecognized "pk") :=
  ⟨rfl, by decide, rfl⟩

/-- Claim C4 (amended): the textual form of a command is
`<local-command>[@<host>]`: for every `Forward` command its text places
the local command (echo or date) before the `@` separator and the host
address after it, and parse accepts this command-first layout. -/
theorem c4_command_first_layout (h : RemoteHost) (c : LocalCommand) (hw : h.wf) :
    Command.display (.forward h c) = c.display ++ "@" ++ h.display
    ∧ Command.from_str (c.display ++ "@" ++ h.display) = .ok (.forward h c) :=
  ⟨rfl, command_from_str_forward h c hw⟩

/-- Witness for the amended C4 at a concrete hop and command. -/
theorem c4_witness :
    Command.display (.forward ⟨"pk", "1.2.3.4:3232"⟩ .date)
        = LocalCommand.display .date ++ "@" ++ RemoteHost.display ⟨"pk", "1.2.3.4:3232"⟩
    ∧ Command.from_str (LocalCommand.display .date ++ "@" ++ RemoteHost.display ⟨"pk", "1.2.3.4:3232"⟩)
        = .ok (.forward ⟨"pk", "1.2.3.4:3232"⟩ .date) :=
  c4_command_first_layout ⟨"pk", "1.2.3.4:3232"⟩ .date (by decide)

/-- Claim C5: parse splits at the first `@`: for every decomposition
`l ++ "@" ++ r` with no `@` in `l` (so the `@` shown is the first one),
the left part is checked against the `LocalCommand` vocabulary and the
whole remainder `r` — further `@` included — is handed to the host
address parser; in particular `"date@host@extra"` parses with command
`date` and address text `host@extra`. -/
theorem c5_first_at_split (l r : String) (h : '@' ∉ l.data) :
    (Command.from_str (l ++ "@" ++ r) =
      match RemoteHost.from_str r with
      | .error e => .error (.remoteAddr e)
      | .ok hp =>
        match LocalCommand.from_str l with
        | .error e => .error e
        | .ok c => .ok (.forward hp c))
    ∧ Command.from_str "date@host@extra" = .ok (.forward ⟨"host", "extra"⟩ .date)
    ∧ RemoteHost.display ⟨"host", "extra"⟩ = "host@extra" :=
  ⟨command_from_str_split l r h, rfl, rfl⟩

/-- Witness for C5 at the concrete decomposition of `"date@host@extra"`. -/
theorem c5_witness :
    (Command.from_str ("date" ++ "@" ++ "host@extra") =
      match RemoteHost.from_str "host@extra" with
      | .error e => .error (.remoteAddr e)
      | .ok hp =>
        match LocalCommand.from_str "date" with
        | .error e => .error e
        | .ok c => .ok (.forward hp c))
    ∧ Command.from_str "date@host@extra" = .ok (.forward ⟨"host", "extra"⟩ .date)
    ∧ RemoteHost.display ⟨"host", "extra"⟩ = "host@extra" :=
  c5_first_at_split "date" "host@extra" (by decide)

/-- Claim C10: the host-address part is validated before the command
token: when the remainder after the first `@` fails to parse as a host
address the returned error is `RemoteAddr` regardless of the left part,
and otherwise the result is decided by the `LocalCommand` lookup on the
left part (so `Unrecognized(left)` arises only when the address part
parsed successfully). -/
theorem c10_address_error_precedence (l r : String) (h : '@' ∉ l.data) :
    (∀ e, RemoteHost.from_str r = .error e →
        Command.from_str (l ++ "@" ++ r) = .error (.remoteAddr e))
    ∧ (∀ hp, RemoteHost.from_str r = .ok hp →
        Command.from_str (l ++ "@" ++ r) =
          match LocalCommand.from_str l with
          | .error e => .error e
          | .ok c => .ok (.forward hp c)) := by
  constructor
  · intro e he
    rw [command_from_str_split l r h, he]
  · intro hp hhp
    rw [command_from_str_split l r h, hhp]

/-- Witness for C10: with the invalid address text `""` after the `@`
the valid command token `date` still yields the address error, and with a
valid address the unrecognized token `foo` yields `Unrecognized`. -/
theorem c10_witness :
    Command.from_str ("date" ++ "@" ++ "") = .error (.remoteAddr .missingKeySeparator)
    ∧ Command.from_str ("foo" ++ "@" ++ "k@a") = .error (.unrecognized "foo") :=
  ⟨(c10_address_error_precedence "date" "" (by decide)).1 .missingKeySeparator rfl,
   by rw [(c10_address_error_precedence "foo" "k@a" (by decide)).2 ⟨"k", "a"⟩ rfl]; rfl⟩

/-! ## Multiplexer (src/server.rs) -/

/-- Byte batches exchanged with peers (`Vec<u8>`). -/
abbrev Msg := List Nat

/-- The reactor action surface (`reactor::Action`), parametrized by the
listener resource type `L` and the transport resource type `T`; resource
ids (`RawFd`) are integers. -/
inductive Action (L T : Type) where
  | registerListener (listener : L)
  | registerTransport (transport : T)
  | send (id : Int) (msg : Msg)
  | unregisterTransport (id : Int)
  | unregisterListener (id : Int)
deriving DecidableEq

/-- The delegate capability set (`trait Delegate` in src/server.rs):
`accept` reads the delegate immutably; `new_client` and `input` mutate it
and return the updated delegate together with the produced actions. -/
structure DelegateOps (D Conn Session Key L T : Type) where
  accept : D → Conn → Session
  new_client : D → Int → Key → D × List (Action L T)
  input : D → Int → Msg → D × List (Action L T)

/-- The multiplexer state (`struct Server` in src/server.rs): the
per-connection outbox map, the pending action queue and the delegate. -/
structure Server (D L T : Type) where
  outbox : Int → Option (List Msg)
  action_queue : List (Action L T)
  delegate : D

/-- Listener events (`netservices::ListenerEvent`), error payloads kept
as diagnostic strings. -/
inductive ListenerEvent (Conn : Type) where
  | accepted (connection : Conn)
  | failure (err : String)

/-- Transport events (`netservices::SessionEvent`); the `Established`
artifact is abstracted to the peer key it carries (`artifact.state.pk`). -/
inductive SessionEvent (Key : Type) where
  | established (key : Key)
  | data (bytes : Msg)
  | terminated (err : String)

/-- The reactor error channel (`reactor::Error`), with exactly the
payloads the handler inspects: the resource id of each variant and, for
`WriteLogicError`, the undelivered message. -/
inductive RError where
  | transportDisconnect (id : Int)
  | writeLogicError (id : Int) (msg : Msg)
  | listenerUnknown (id : Int)
  | transportUnknown (id : Int)
  | poll
  | listenerDisconnect (id : Int)
  | listenerPollError (id : Int)
  | writeFailure (id : Int)
  | transportPollError (id : Int)

/-- `handle_listener_event` (src/server.rs lines 57–89): an accepted raw
connection is given to `delegate.accept`, the resulting session wrapped
by the external fallible `Transport::accept` (modelled by the
`transport_accept` parameter); success enqueues `RegisterTransport`,
failure only logs; a listener `Failure` event only logs. -/
def handle_listener_event {D Conn Session Key L T : Type}
    (ops : DelegateOps D Conn Session Key L T)
    (transport_accept : Session → Except String T)
    (s : Server D L T) (id : Int) (event : ListenerEvent Conn) : Server D L T :=
  match event with
  | .accepted connection =>
    let session := ops.accept s.delegate connection
    match transport_accept session with
    | .ok transport =>
      { s with action_queue := s.action_queue ++ [Action.registerTransport transport] }
    | .error _ => s
  | .failure _ => s

/-- `handle_transport_event` (src/server.rs lines 91–116): `Established`
removes the connection's outbox queue, enqueues the actions of
`delegate.new_client` and then the removed queue as `Send` actions;
`Data` enqueues the actions of `delegate.input`; `Terminated` enqueues
`UnregisterTransport`. -/
def handle_transport_event {D Conn Session Key L T : Type}
    (ops : DelegateOps D Conn Session Key L T)
    (s : Server D L T) (id : Int) (event : SessionEvent Key) : Server D L T :=
  match event with
  | .established key =>
    let queue := (s.outbox id).getD []
    let r := ops.new_client s.delegate id key
    { outbox := fun j => if j = id then none else s.outbox j,
      action_queue := s.action_queue ++ r.2 ++ queue.map (Action.send id),
      delegate := r.1 }
  | .data bytes =>
    let r := ops.input s.delegate id bytes
    { s with action_queue := s.action_queue ++ r.2, delegate := r.1 }
  | .terminated _ =>
    { s with action_queue := s.action_queue ++ [Action.unregisterTransport id] }

/-- `handle_error` (src/server.rs lines 122–148): transport disconnects
are logged only; `WriteLogicError` pushes the message onto the
connection's outbox (created if absent); unknown ids and poll errors are
logged only; listener disconnect/poll errors enqueue
`UnregisterListener`; write failures and transport poll errors enqueue
`UnregisterTransport`. -/
def handle_error {D L T : Type} (s : Server D L T) (err : RError) : Server D L T :=
  match err with
  | .transportDisconnect _ => s
  | .writeLogicError id msg =>
    { s with outbox := fun j =>
        if j = id then some ((s.outbox id).getD [] ++ [msg]) else s.outbox j }
  | .listenerUnknown _ => s
  | .transportUnknown _ => s
  | .poll => s
  | .listenerDisconnect id =>
    { s with action_queue := s.action_queue ++ [Action.unregisterListener id] }
  | .listenerPollError id =>
    { s with action_queue := s.action_queue ++ [Action.unregisterListener id] }
  | .writeFailure id =>
    { s with action_queue := s.action_queue ++ [Action.unregisterTransport id] }
  | .transportPollError id =>
    { s with action_queue := s.action_queue ++ [Action.unregisterTransport id] }

/-- Repeated handling of write-not-ready errors for connection `id`, one
`WriteLogicError` per message of `msgs` (the buffering path). -/
def buffer_writes {D L T : Type} (s : Server D L T) (id : Int) (msgs : List Msg) :
    Server D L T :=
  msgs.foldl (fun st m => handle_error st (.writeLogicError id m)) s

theorem buffer_writes_spec {D L T : Type} (id : Int) (msgs : List Msg) :
    ∀ s : Server D L T,
      (buffer_writes s id msgs).action_queue = s.action_queue
      ∧ (buffer_writes s id msgs).delegate = s.delegate
      ∧ ((buffer_writes s id msgs).outbox id).getD [] = (s.outbox id).getD [] ++ msgs := by
  induction msgs with
  | nil => intro s; simp [buffer_writes]
  | cons m ms ih =>
    intro s
    have h := ih (handle_error s (.writeLogicError id m))
    simp only [buffer_writes, List.foldl_cons] at h ⊢
    refine ⟨h.1, h.2.1, ?_⟩
    rw [h.2.2]
    simp [handle_error]

/-! ## Concrete instances for evaluation -/

/-- A trivial concrete delegate over `Unit` state, used to evaluate the
handlers on concrete inputs. -/
def unitOps : DelegateOps Unit Nat Nat Nat Nat Nat :=
  ⟨fun _ c => c,
   fun _ _ _ => ((), [Action.registerListener 5]),
   fun _ _ _ => ((), [])⟩

/-- A concrete multiplexer state with empty outbox and queue. -/
def emptyServer : Server Unit Nat Nat :=
  ⟨fun _ => none, [], ()⟩

/-- A concrete multiplexer state holding two buffered messages for
connection 7. -/
def outboxServer : Server Unit Nat Nat :=
  ⟨fun j => if j = 7 then some [[1], [2]] else none, [], ()⟩

/-- A concrete always-successful `Transport::accept`, yielding handle 4. -/
def okAccept : Nat → Except String Nat :=
  fun _ => .ok 4

/-! ## Multiplexer claims -/

/-- Claim C1: after N messages are buffered for connection `id` through
the write-not-ready path, handling `Established(key)` enqueues first all
actions returned by `delegate.new_client(id, key)` and only then the N
buffered messages as `Send(id, ·)` actions in their original enqueue
order; afterwards the outbox holds no entry for `id` (buffering itself
enqueued no action). -/
theorem c1_newclient_precedes_outbox_flush
    {D Conn Session Key L T : Type}
    (ops : DelegateOps D Conn Session Key L T)
    (s : Server D L T) (id : Int) (key : Key) (msgs : List Msg)
    (h : s.outbox id = none) :
    (handle_transport_event ops (buffer_writes s id msgs) id (.established key)).action_queue
      = s.action_queue ++ (ops.new_client s.delegate id key).2 ++ msgs.map (Action.send id)
    ∧ (handle_transport_event ops (buffer_writes s id msgs) id (.established key)).outbox id
      = none
    ∧ (buffer_writes s id msgs).action_queue = s.action_queue := by
  obtain ⟨hq, hd, hob⟩ := buffer_writes_spec id msgs s
  refine ⟨?_, by simp [handle_transport_event], hq⟩
  simp only [handle_transport_event]
  rw [hq, hd, hob, h]
  simp

/-- Witness for C1 with two buffered messages on connection 7. -/
theorem c1_witness :
    (handle_transport_event unitOps (buffer_writes emptyServer 7 [[1], [2]]) 7 (.established 3)).action_queue
      = emptyServer.action_queue ++ (unitOps.new_client emptyServer.delegate 7 3).2
          ++ [[1], [2]].map (Action.send 7)
    ∧ (handle_transport_event unitOps (buffer_writes emptyServer 7 [[1], [2]]) 7 (.established 3)).outbox 7
      = none
    ∧ (buffer_writes emptyServer 7 [[1], [2]]).action_queue = emptyServer.action_queue :=
  c1_newclient_precedes_outbox_flush unitOps emptyServer 7 3 [[1], [2]] rfl

/-- Claim C2 against the code: handling `Terminated` enqueues
`UnregisterTransport(id)` and emits no `Send` there, but — contrary to
the claim — the outbox entry for `id` is NOT removed, and a later
`Established` for the same id flushes the stale buffered messages as
`Send` actions. -/
theorem c2_terminated_keeps_outbox_entry
    {D Conn Session Key L T : Type}
    (ops : DelegateOps D Conn Session Key L T)
    (s : Server D L T) (id : Int) (e : String) (key : Key) (msgs : List Msg)
    (h : s.outbox id = some msgs) :
    (handle_transport_event ops s id (.terminated e)).action_queue
      = s.action_queue ++ [Action.unregisterTransport id]
    ∧ (handle_transport_event ops s id (.terminated e)).outbox id = some msgs
    ∧ (handle_transport_event ops (handle_transport_event ops s id (.terminated e)) id
        (.established key)).action_queue
      = (s.action_queue ++ [Action.unregisterTransport id])
          ++ (ops.new_client s.delegate id key).2 ++ msgs.map (Action.send id) := by
  refine ⟨rfl, h, ?_⟩
  simp [handle_transport_event, h]

/-- Witness for C2's divergence on connection 7 with one stale message. -/
theorem c2_witness :
    (handle_transport_event unitOps outboxServer 7 (.terminated "err")).action_queue
      = outboxServer.action_queue ++ [Action.unregisterTransport 7]
    ∧ (handle_transport_event unitOps outboxServer 7 (.terminated "err")).outbox 7
      = some [[1], [2]]
    ∧ (handle_transport_event unitOps (handle_transport_event unitOps outboxServer 7 (.terminated "err")) 7
        (.established 3)).action_queue
      = (outboxServer.action_queue ++ [Action.unregisterTransport 7])
          ++ (unitOps.new_client outboxServer.delegate 7 3).2 ++ [[1], [2]].map (Action.send 7) :=
  c2_terminated_keeps_outbox_entry unitOps outboxServer 7 "err" 3 [[1], [2]] rfl

/-- Claim C6: handling `WriteLogicError(id, msg)` appends `msg` at the
back of id's outbox queue (created if absent), enqueues no action, keeps
the delegate, and surfaces no failure (the handler is total and returns
normally). -/
theorem c6_write_not_ready_buffers
    {D L T : Type} (s : Server D L T) (id : Int) (msg : Msg) :
    (handle_error s (.writeLogicError id msg)).outbox
      = (fun j => if j = id then some ((s.outbox id).getD [] ++ [msg]) else s.outbox j)
    ∧ (handle_error s (.writeLogicError id msg)).outbox id
      = some ((s.outbox id).getD [] ++ [msg])
    ∧ (handle_error s (.writeLogicError id msg)).action_queue = s.action_queue
    ∧ (handle_error s (.writeLogicError id msg)).delegate = s.delegate :=
  ⟨rfl, by simp [handle_error], rfl, rfl⟩

/-- Claim C7: listener disconnects and listener poll errors enqueue
exactly one `UnregisterListener(id)`; write failures (other than
not-writable) and transport poll errors enqueue exactly one
`UnregisterTransport(id)`; outbox and delegate are untouched in all four
cases. -/
theorem c7_teardown_enqueues_unregister
    {D L T : Type} (s : Server D L T) (id : Int) :
    (handle_error s (.listenerDisconnect id)).action_queue
      = s.action_queue ++ [Action.unregisterListener id]
    ∧ (handle_error s (.listenerPollError id)).action_queue
      = s.action_queue ++ [Action.unregisterListener id]
    ∧ (handle_error s (.writeFailure id)).action_queue
      = s.action_queue ++ [Action.unregisterTransport id]
    ∧ (handle_error s (.transportPollError id)).action_queue
      = s.action_queue ++ [Action.unregisterTransport id]
    ∧ (handle_error s (.listenerDisconnect id)).outbox = s.outbox
    ∧ (handle_error s (.listenerPollError id)).outbox = s.outbox
    ∧ (handle_error s (.writeFailure id)).outbox = s.outbox
    ∧ (handle_error s (.transportPollError id)).outbox = s.outbox
    ∧ (handle_error s (.listenerDisconnect id)).delegate = s.delegate
    ∧ (handle_error s (.listenerPollError id)).delegate = s.delegate
    ∧ (handle_error s (.writeFailure id)).delegate = s.delegate
    ∧ (handle_error s (.transportPollError id)).delegate = s.delegate :=
  ⟨rfl, rfl, rfl, rfl, rfl, rfl, rfl, rfl, rfl, rfl, rfl, rfl⟩

/-- Claim C8: unknown listener id, unknown transport id and poll-layer
errors leave the multiplexer state entirely unchanged. -/
theorem c8_unknown_ids_no_mutation
    {D L T : Type} (s : Server D L T) (lid tid : Int) :
    handle_error s (.listenerUnknown lid) = s
    ∧ handle_error s (.transportUnknown tid) = s
    ∧ handle_error s .poll = s :=
  ⟨rfl, rfl, rfl⟩

/-- Claim C9: a listener `Failure` event performs no deregistration and
no state mutation at all, and a later `Accepted` event (whose transport
wrap succeeds) still enqueues a `RegisterTransport` action. -/
theorem c9_listener_failure_resilience
    {D Conn Session Key L T : Type}
    (ops : DelegateOps D Conn Session Key L T)
    (transport_accept : Session → Except String T)
    (s : Server D L T) (lid : Int) (e : String) (connection : Conn) (t : T)
    (h : transport_accept (ops.accept s.delegate connection) = .ok t) :
    handle_listener_event ops transport_accept s lid (.failure e) = s
    ∧ (handle_listener_event ops transport_accept
        (handle_listener_event ops transport_accept s lid (.failure e)) lid
        (.accepted connection)).action_queue
      = s.action_queue ++ [Action.registerTransport t] := by
  refine ⟨rfl, ?_⟩
  simp [handle_listener_event, h]

/-- Witness for C9 with a transport wrap that succeeds with handle 4. -/
theorem c9_witness :
    handle_listener_event unitOps okAccept emptyServer 1 (.failure "boom") = emptyServer
    ∧ (handle_listener_event unitOps okAccept
        (handle_listener_event unitOps okAccept emptyServer 1 (.failure "boom")) 1
        (.accepted 2)).action_queue
      = emptyServer.action_queue ++ [Action.registerTransport 4] :=
  c9_listener_failure_resilience unitOps okAccept emptyServer 1 "boom" 2 4 rfl

end Nsh
